import Mathlib

/-!
Verification of setup_peertube.py, a single-file PeerTube provisioning
script.  The script is shallowly embedded: Python strings become Lean
String values (ASCII-faithful), machine integers become Int, fallible
Python operations (int() parsing, shlex.split) become Option, and each
effectful reconciliation step becomes a pure function from its inputs and
from the observable responses of the host (process exit codes, probe
outputs) to the sequence of external commands it issues.
-/

namespace SetupPT

/-- The single-quote character (codepoint 39), used when rendering quoted
YAML scalars exactly as the Python f-string template does. -/
def sqChar : Char := Char.ofNat 39

/-- One-character string holding the single quote. -/
def SQ : String := String.singleton sqChar

/-- Whitespace characters removed by Python str.strip() with no argument
(ASCII subset; the script only ever strips ASCII configuration text). -/
def isPySpace (c : Char) : Bool :=
  (c == ' ') || (c == '\t') || (c == '\n') || (c == '\r') || (c == '\x0b') || (c == '\x0c')

/-- List-level model of Python str.strip(): drop leading and trailing
whitespace. -/
def pyStripL (l : List Char) : List Char :=
  ((l.dropWhile isPySpace).reverse.dropWhile isPySpace).reverse

/-- Model of Python str.strip() on strings. -/
def pyStrip (s : String) : String := ⟨pyStripL s.data⟩

/-- Model of Python str.lower() (ASCII case folding, as Char.toLower). -/
def pyLower (s : String) : String := ⟨s.data.map Char.toLower⟩

/-- A Python value in a boolean-like position: the script passes either a
bool or a string wherever bool_str is applied. -/
inductive PyVal where
  | bool (b : Bool)
  | str (s : String)
deriving DecidableEq, Repr

/-- The set of truthy strings recognised by bool_str in setup_peertube.py,
line 339. -/
def truthyList : List String := ["1", "true", "yes", "y", "on"]

/-- Embedding of bool_str (setup_peertube.py lines 325-339): a genuine bool
maps directly; any other value is converted to a string, stripped,
lowercased and compared against the truthy set. -/
def bool_str (x : PyVal) : String :=
  match x with
  | .bool b => if b then "true" else "false"
  | .str s => if pyLower (pyStrip s) ∈ truthyList then "true" else "false"

/-- dropWhile consumes a block that satisfies the predicate entirely. -/
theorem dropWhile_append_all (p : Char → Bool) :
    ∀ (w l : List Char), (∀ c ∈ w, p c = true) →
      List.dropWhile p (w ++ l) = List.dropWhile p l := by
  intro w
  induction w with
  | nil => intro l _; rfl
  | cons c w ih =>
      intro l h
      have hc : p c = true := h c (by simp)
      simp only [List.cons_append, List.dropWhile_cons, hc, if_true]
      exact ih l (fun d hd => h d (by simp [hd]))

/-- dropWhile is the identity on a list with no character satisfying the
predicate. -/
theorem dropWhile_all_neg (p : Char → Bool) :
    ∀ (l : List Char), (∀ c ∈ l, p c = false) → List.dropWhile p l = l := by
  intro l
  induction l with
  | nil => intro _; rfl
  | cons c t ih =>
      intro h
      have hc : p c = false := h c (by simp)
      simp only [List.dropWhile_cons, hc]
      simp

/-- Stripping a word padded with whitespace on both sides recovers the
word, provided the word itself contains no whitespace. -/
theorem pyStripL_padded (w1 w2 core : List Char)
    (h1 : ∀ c ∈ w1, isPySpace c = true) (h2 : ∀ c ∈ w2, isPySpace c = true)
    (hc : ∀ c ∈ core, isPySpace c = false) (hne : core ≠ []) :
    pyStripL (w1 ++ (core ++ w2)) = core := by
  unfold pyStripL
  rw [dropWhile_append_all isPySpace w1 (core ++ w2) h1]
  obtain ⟨c, t, rfl⟩ : ∃ c t, core = c :: t := by
    cases core with
    | nil => exact absurd rfl hne
    | cons c t => exact ⟨c, t, rfl⟩
  have hdrop : List.dropWhile isPySpace ((c :: t) ++ w2) = (c :: t) ++ w2 := by
    simp only [List.cons_append, List.dropWhile_cons, hc c (by simp)]
    simp
  rw [hdrop, List.reverse_append]
  rw [dropWhile_append_all isPySpace _ _ (fun x hx => h2 x (List.mem_reverse.mp hx))]
  rw [dropWhile_all_neg isPySpace _ (fun x hx => hc x (List.mem_reverse.mp hx))]
  exact List.reverse_reverse _

/-- A whitespace character is fixed by ASCII lowercasing. -/
theorem toLower_of_space (c : Char) (h : isPySpace c = true) : Char.toLower c = c := by
  simp only [isPySpace, Bool.or_eq_true, beq_iff_eq] at h
  rcases h with ((((h | h) | h) | h) | h) | h <;> subst h <;> decide

/-- If the lowercased form of a character is not whitespace, neither is the
character itself. -/
theorem nonspace_of_toLower (c : Char) (h : isPySpace (Char.toLower c) = false) :
    isPySpace c = false := by
  by_contra hc
  have ht : isPySpace c = true := by
    cases hx : isPySpace c with
    | false => exact absurd hx hc
    | true => rfl
  rw [toLower_of_space c ht] at h
  rw [ht] at h
  exact Bool.noConfusion h

/-- No truthy string contains whitespace. -/
theorem truthy_chars (t : String) (ht : t ∈ truthyList) :
    ∀ d ∈ t.data, isPySpace d = false := by
  simp only [truthyList, List.mem_cons, List.not_mem_nil, or_false] at ht
  rcases ht with h | h | h | h | h <;> subst h <;> decide

/-- C2: for every string whose letters lowercase to one of the five truthy
words, surrounded by arbitrary whitespace, bool_str returns the string
true; for every string whose stripped lowercased form is not a truthy
word, bool_str returns the string false. -/
theorem bool_str_truthy_spec :
    (∀ w1 w2 core : String,
      (∀ c ∈ w1.data, isPySpace c = true) → (∀ c ∈ w2.data, isPySpace c = true) →
      pyLower core ∈ truthyList →
      bool_str (PyVal.str (w1 ++ core ++ w2)) = "true")
    ∧ (∀ s : String, pyLower (pyStrip s) ∉ truthyList →
      bool_str (PyVal.str s) = "false") := by
  constructor
  · intro w1 w2 core h1 h2 hcore
    have hns : ∀ c ∈ core.data, isPySpace c = false := by
      intro c hcmem
      apply nonspace_of_toLower
      apply truthy_chars (pyLower core) hcore
      simp only [pyLower]
      exact List.mem_map.mpr ⟨c, hcmem, rfl⟩
    have hne : core.data ≠ [] := by
      intro h0
      have hempty : pyLower core = "" := by
        apply String.ext
        simp [pyLower, h0]
      rw [hempty] at hcore
      exact absurd hcore (by decide)
    have hstrip : pyStrip (w1 ++ core ++ w2) = core := by
      apply String.ext
      show pyStripL (w1 ++ core ++ w2).data = core.data
      have hdata : (w1 ++ core ++ w2).data = w1.data ++ (core.data ++ w2.data) := by
        simp [String.data_append]
      rw [hdata]
      exact pyStripL_padded w1.data w2.data core.data h1 h2 hns hne
    simp only [bool_str, hstrip, hcore, if_true]
  · intro s hs
    simp only [bool_str, hs, if_false]

/-- Witness for C2 at concrete inputs: a padded mixed-case TrUe is truthy,
and an unrelated word is falsy. -/
theorem bool_str_truthy_spec_witness :
    bool_str (PyVal.str (" " ++ "TrUe" ++ "\t ")) = "true"
    ∧ bool_str (PyVal.str "banana") = "false" := by
  refine ⟨bool_str_truthy_spec.1 " " "\t " "TrUe" (by decide) (by decide) (by decide),
          bool_str_truthy_spec.2 "banana" (by decide)⟩

/-! ## The privileged command runner (run, setup_peertube.py lines 81-138) -/

/-- Characters treated as token separators by Python shlex. -/
def isShlexWs (c : Char) : Bool :=
  (c == ' ') || (c == '\t') || (c == '\r') || (c == '\n')

/-- States of the Python shlex tokenizer in POSIX mode: outside quotes,
inside a single-quoted section, inside a double-quoted section. -/
inductive SMode where
  | norm
  | single
  | double
deriving DecidableEq

/-- Model of the Python shlex.split state machine (POSIX mode, whitespace
split, no comment characters).  The second argument is the token under
construction (none when between tokens); the result is none exactly when
shlex.split raises ValueError (unclosed quote or trailing escape). -/
def shlexAux : SMode → Option (List Char) → List Char → Option (List (List Char))
  | .single, _, [] => none
  | .double, _, [] => none
  | .norm, cur, [] => some (match cur with | none => [] | some t => [t])
  | .norm, cur, c :: rest =>
    if c = sqChar then shlexAux .single (some (cur.getD [])) rest
    else if c = '"' then shlexAux .double (some (cur.getD [])) rest
    else if c = '\\' then
      match rest with
      | [] => none
      | d :: rest2 => shlexAux .norm (some (cur.getD [] ++ [d])) rest2
    else if isShlexWs c then
      match cur with
      | none => shlexAux .norm none rest
      | some t => (shlexAux .norm none rest).map (fun ts => t :: ts)
    else shlexAux .norm (some (cur.getD [] ++ [c])) rest
  | .single, cur, c :: rest =>
    if c = sqChar then shlexAux .norm cur rest
    else shlexAux .single (some (cur.getD [] ++ [c])) rest
  | .double, cur, c :: rest =>
    if c = '"' then shlexAux .norm cur rest
    else if c = '\\' then
      match rest with
      | [] => none
      | d :: rest2 =>
        if d = '"' ∨ d = '\\' then shlexAux .double (some (cur.getD [] ++ [d])) rest2
        else shlexAux .double (some (cur.getD [] ++ ['\\', d])) rest2
    else shlexAux .double (some (cur.getD [] ++ [c])) rest

/-- Model of Python shlex.split: tokenize a command string with POSIX
quoting rules; none models the ValueError raised on malformed input. -/
def shlexSplit (s : String) : Option (List String) :=
  (shlexAux .norm none s.data).map (List.map (fun l => (⟨l⟩ : String)))

/-- Characters that Python shlex.quote leaves unquoted (ASCII word
characters plus the explicitly safe punctuation). -/
def shlexSafeChar (c : Char) : Bool :=
  (97 ≤ c.toNat && c.toNat ≤ 122) || (65 ≤ c.toNat && c.toNat ≤ 90)
  || (48 ≤ c.toNat && c.toNat ≤ 57)
  || c == '_' || c == '@' || c == '%' || c == '+' || c == '=' || c == ':'
  || c == ',' || c == '.' || c == '/' || c == '-'

/-- Model of Python shlex.quote: empty strings and strings containing any
unsafe character are wrapped in single quotes, with embedded single quotes
rewritten to the quote-dquote-quote-dquote-quote escape. -/
def shlexQuote (s : String) : String :=
  if s = "" then SQ ++ SQ
  else if s.data.all shlexSafeChar then s
  else
    SQ ++ (⟨s.data.flatMap (fun c =>
      if c = sqChar then [sqChar, '"', sqChar, '"', sqChar] else [c])⟩ : String) ++ SQ

/-- A command argument to run(): either a single string or an argument
vector, mirroring the dynamic isinstance checks in the Python code. -/
inductive PyCmd where
  | str (s : String)
  | list (l : List String)
deriving DecidableEq

/-- What run() finally hands to the operating system.  direct is
subprocess.run on an argument vector with shell False; viaShellStr and
viaShellList are subprocess.run with shell True; sudoBash is the argument
vector sudo -u (user) bash -lc (inner), in which bash evaluates the inner
string as shell input. -/
inductive Launched where
  | direct (argv : List String) (cwd : Option String)
  | sudoBash (u : String) (inner : String)
  | viaShellStr (cmd : String) (cwd : Option String)
  | viaShellList (argv : List String) (cwd : Option String)
deriving DecidableEq

/-- The inner string of the sudo bash -lc wrapper: prefixed by a cd when a
working directory is given (setup_peertube.py lines 118-122). -/
def innerCmd (cmdShow : String) (cwd : Option String) : String :=
  match cwd with
  | some d => "cd " ++ shlexQuote d ++ " && " ++ cmdShow
  | none => cmdShow

/-- True when the launched process evaluates a command string with a shell
(either shell=True, or the sudo bash -lc wrapper whose -lc argument is
shell-evaluated by bash). -/
def handedToShell : Launched → Bool
  | .direct _ _ => false
  | .sudoBash _ _ => true
  | .viaShellStr _ _ => true
  | .viaShellList _ _ => true

/-- Embedding of run (setup_peertube.py lines 81-138).  A string command
with shell unset is first tokenized by shlex.split (whose ValueError, if
any, is raised before anything executes, hence the none).  If a non-empty
user is given and the effective uid is 0, the printable command string is
wrapped in sudo -u user bash -lc; otherwise the command is executed
directly, through the shell only when the shell flag is set. -/
def run (cmd : PyCmd) (shell : Bool) (user : Option String) (euid : Nat)
    (cwd : Option String) : Option Launched :=
  match cmd, shell with
  | .str s, false =>
    match shlexSplit s with
    | none => none
    | some toks =>
      match user with
      | some u =>
        if (u != "") && (euid == 0) then some (.sudoBash u (innerCmd s cwd))
        else some (.direct toks cwd)
      | none => some (.direct toks cwd)
  | .str s, true =>
    match user with
    | some u =>
      if (u != "") && (euid == 0) then some (.sudoBash u (innerCmd s cwd))
      else some (.viaShellStr s cwd)
    | none => some (.viaShellStr s cwd)
  | .list l, sh =>
    let cmdShow := String.intercalate " " (l.map shlexQuote)
    match user with
    | some u =>
      if (u != "") && (euid == 0) then some (.sudoBash u (innerCmd cmdShow cwd))
      else if sh then some (.viaShellList l cwd) else some (.direct l cwd)
    | none => if sh then some (.viaShellList l cwd) else some (.direct l cwd)

/-- C1 counterexample: a string command with the shell flag unset, given a
runAsUser while the process is root, is not executed as its shlex token
vector; the raw string is embedded in a sudo bash -lc invocation, which
hands it to a shell for evaluation. -/
theorem run_root_user_shell_counterexample :
    run (PyCmd.str "echo $HOME | wc -c") false (some "peertube") 0 none
      = some (Launched.sudoBash "peertube" "echo $HOME | wc -c")
    ∧ handedToShell (Launched.sudoBash "peertube" "echo $HOME | wc -c") = true := by
  exact ⟨rfl, rfl⟩

/-- C1 amended: a string command with the shell flag unset is tokenized
with POSIX quoting rules and executed without a shell exactly when no
runAsUser applies (user absent or empty, or the process is not root); when
a non-empty runAsUser is supplied and the process is root, the raw command
string is wrapped in sudo -u user bash -lc and thus shell-evaluated. -/
theorem run_string_tokenization (s : String) (user : Option String) (euid : Nat)
    (cwd : Option String) (toks : List String) (hsplit : shlexSplit s = some toks) :
    ((user = none ∨ user = some "" ∨ euid ≠ 0) →
      run (PyCmd.str s) false user euid cwd = some (Launched.direct toks cwd)
      ∧ handedToShell (Launched.direct toks cwd) = false)
    ∧ (∀ u, user = some u → u ≠ "" → euid = 0 →
      run (PyCmd.str s) false user euid cwd = some (Launched.sudoBash u (innerCmd s cwd))
      ∧ handedToShell (Launched.sudoBash u (innerCmd s cwd)) = true) := by
  constructor
  · intro h
    rcases h with h | h | h
    · subst h; simp [run, hsplit, handedToShell]
    · subst h; simp [run, hsplit, handedToShell]
    · cases user with
      | none => simp [run, hsplit, handedToShell]
      | some u =>
          simp only [run, hsplit, handedToShell]
          rw [if_neg]
          · exact ⟨rfl, trivial⟩
          · simp [h]
  · intro u hu hne h0
    subst hu
    subst h0
    simp only [run, hsplit, handedToShell]
    rw [if_pos]
    · exact ⟨rfl, trivial⟩
    · simp [hne]

/-- Witness for C1 amended: a concrete benign command, no runAsUser. -/
theorem run_string_tokenization_witness :
    run (PyCmd.str "git fetch --all") false none 0 none
      = some (Launched.direct ["git", "fetch", "--all"] none) :=
  ((run_string_tokenization "git fetch --all" none 0 none ["git", "fetch", "--all"]
    (by decide)).1 (Or.inl rfl)).1

/-! ## IPv4 detection and the TLS certificate step
(is_ip, lines 155-166; enable_https_if_needed, lines 624-647) -/

/-- Consume one to three ASCII digits at the head of the list, returning
the remainder; none when the head is not one to three digits followed by a
non-digit (the regex group d with 1 to 3 repetitions, anchored). -/
def matchOctet (l : List Char) : Option (List Char) :=
  let ds := l.takeWhile Char.isDigit
  if 1 ≤ ds.length && ds.length ≤ 3 then some (l.dropWhile Char.isDigit) else none

/-- Match the remaining (dot digits) groups of the IPv4 regex, then the
end anchor; the Python dollar anchor also accepts one trailing newline. -/
def ipv4Tail : Nat → List Char → Bool
  | 0, rest => (rest == []) || (rest == ['\n'])
  | k + 1, rest =>
    match rest with
    | '.' :: rest2 =>
      match matchOctet rest2 with
      | some rest3 => ipv4Tail k rest3
      | none => false
    | _ => false

/-- Embedding of is_ip (setup_peertube.py lines 155-166): the anchored
regex for a dotted quad of one-to-three-digit groups (ASCII digits; the
greedy quantifier needs no backtracking because digit and dot are
disjoint). -/
def is_ip (host : String) : Bool :=
  match matchOctet host.data with
  | some rest => ipv4Tail 3 rest
  | none => false

/-- Outcome of enable_https_if_needed: an early return on a falsy HTTPS
option, an early return on an IPv4-shaped domain, or the certbot command
(run with check False). -/
inductive HttpsStep where
  | skippedHttpsDisabled
  | skippedIpDomain
  | ranCertbot (cmd : String)
deriving DecidableEq

/-- True only for the branch that invokes the external certbot command. -/
def certbotInvoked : HttpsStep → Bool
  | .ranCertbot _ => true
  | _ => false

/-- The certbot command line constructed at lines 641-647. -/
def certbotCmd (domain : String) : String :=
  "certbot --nginx -d " ++ shlexQuote domain ++ " --non-interactive --agree-tos -m "
    ++ shlexQuote ("admin@" ++ domain)

/-- Embedding of enable_https_if_needed (lines 624-647). -/
def enable_https_if_needed (domain : String) (https : PyVal) : HttpsStep :=
  if bool_str https ≠ "true" then .skippedHttpsDisabled
  else if is_ip domain then .skippedIpDomain
  else .ranCertbot (certbotCmd domain)

/-- C5: the TLS certificate step never invokes the external certificate
command when the domain is IPv4-shaped, nor when the HTTPS option parses
to false; it returns one of the two skip outcomes instead. -/
theorem enable_https_skip_spec (domain : String) (https : PyVal)
    (h : is_ip domain = true ∨ bool_str https ≠ "true") :
    certbotInvoked (enable_https_if_needed domain https) = false
    ∧ (enable_https_if_needed domain https = HttpsStep.skippedHttpsDisabled
       ∨ enable_https_if_needed domain https = HttpsStep.skippedIpDomain) := by
  unfold enable_https_if_needed
  by_cases hb : bool_str https = "true"
  · rcases h with h | h
    · simp [hb, h, certbotInvoked]
    · exact absurd hb h
  · simp [hb, certbotInvoked]

/-- Witness for C5 at the concrete dotted-quad domain from the spec. -/
theorem enable_https_skip_spec_witness :
    certbotInvoked (enable_https_if_needed "203.0.113.7" (PyVal.str "true")) = false :=
  (enable_https_skip_spec "203.0.113.7" (PyVal.str "true") (Or.inl (by decide))).1

/-! ## The database reconciliation step (ensure_db, lines 231-262) -/

/-- The sudo -u postgres psql commands that ensure_db can issue. -/
inductive DbCmd where
  | probeRole (user : String)
  | createRole (user password : String)
  | probeDb (name : String)
  | createDb (name owner : String)
deriving DecidableEq

/-- Model of the Python substring test (the in operator on str). -/
def subChars (n : List Char) : List Char → Bool
  | [] => n.isEmpty
  | c :: rest => List.isPrefixOf n (c :: rest) || subChars n rest

/-- needle in haystack, as Python str membership. -/
def strIn (needle hay : String) : Bool := subChars needle.data hay.data

/-- Embedding of ensure_db (lines 231-262) as the sequence of psql
commands it issues, given the captured stdout of the two existence
probes.  A role or database is created only when the digit 1 does not
occur in the corresponding probe output. -/
def ensure_db (user password dbname : String)
    (roleProbeOut dbProbeOut : String) : List DbCmd :=
  [DbCmd.probeRole user]
  ++ (if strIn "1" roleProbeOut then [] else [DbCmd.createRole user password])
  ++ [DbCmd.probeDb dbname]
  ++ (if strIn "1" dbProbeOut then [] else [DbCmd.createDb dbname user])

/-- C6: when the role-existence probe reports the role present, ensure_db
issues no command that creates or alters the role, and its command
sequence does not depend on the configured password at all. -/
theorem ensure_db_existing_role_frame (user p1 p2 dbname roleProbeOut dbProbeOut : String)
    (hrole : strIn "1" roleProbeOut = true) :
    (∀ cmd ∈ ensure_db user p1 dbname roleProbeOut dbProbeOut,
      ∀ u pw, cmd ≠ DbCmd.createRole u pw)
    ∧ ensure_db user p1 dbname roleProbeOut dbProbeOut
      = ensure_db user p2 dbname roleProbeOut dbProbeOut := by
  constructor
  · intro cmd hmem u pw
    by_cases hdb : strIn "1" dbProbeOut = true
    · simp only [ensure_db, hrole, hdb, if_true, List.append_nil, List.nil_append,
        List.singleton_append, List.mem_cons, List.not_mem_nil, or_false] at hmem
      rcases hmem with h | h <;> subst h <;> simp
    · rw [Bool.not_eq_true] at hdb
      simp only [ensure_db, hrole, hdb, if_true, Bool.false_eq_true, if_false,
        List.append_nil, List.nil_append, List.singleton_append, List.append_assoc,
        List.cons_append, List.mem_cons, List.not_mem_nil, or_false] at hmem
      rcases hmem with h | h | h <;> subst h <;> simp
  · simp [ensure_db, hrole]

/-- Witness for C6: concrete probe outputs reporting an existing role and
an existing database; two different passwords give the same commands. -/
theorem ensure_db_existing_role_frame_witness :
    (∀ cmd ∈ ensure_db "peertube" "oldpass" "peertube" "1\n" "1\n",
      ∀ u pw, cmd ≠ DbCmd.createRole u pw)
    ∧ ensure_db "peertube" "oldpass" "peertube" "1\n" "1\n"
      = ensure_db "peertube" "newpass" "peertube" "1\n" "1\n" :=
  ensure_db_existing_role_frame "peertube" "oldpass" "newpass" "peertube" "1\n" "1\n"
    (by decide)

/-! ## The configuration renderer
(gen_secret_hex, lines 311-321; build_production_yaml, lines 343-543) -/

/-- The lowercase hexadecimal alphabet used by Python bytes.hex(). -/
def hexChars : List Char := "0123456789abcdef".data

/-- Two lowercase hex digits of one byte (bytes from os.urandom are below
256, so the default of getD is never reached on real inputs). -/
def byteHex (b : Nat) : List Char :=
  [hexChars.getD (b / 16) '0', hexChars.getD (b % 16) '0']

/-- Embedding of gen_secret_hex (lines 311-321): os.urandom is external
randomness, modelled as the list of bytes it returned; the function hex
encodes them.  The script calls it with nbytes = 32. -/
def gen_secret_hex (randomBytes : List Nat) : String :=
  ⟨(randomBytes.map byteHex).flatten⟩

/-- Parse the digit (and separating underscore) body of a Python int
literal, most significant digit first, given the accumulated value. -/
def pyDigitsVal (acc : Nat) : List Char → Option Nat
  | [] => some acc
  | '_' :: rest =>
    match rest with
    | [] => none
    | c :: rest2 =>
      if c.isDigit then pyDigitsVal (acc * 10 + (c.toNat - 48)) rest2 else none
  | c :: rest =>
    if c.isDigit then pyDigitsVal (acc * 10 + (c.toNat - 48)) rest else none

/-- Digits of a Python int literal: at least one leading digit, then
digits with optional single underscores between them. -/
def pyDigits : List Char → Option Nat
  | [] => none
  | c :: rest => if c.isDigit then pyDigitsVal (c.toNat - 48) rest else none

/-- A Python value in an int() position: either already an int or a string
that int() must parse. -/
inductive PyIntV where
  | int (n : Int)
  | str (s : String)
deriving DecidableEq

/-- Model of Python int(): the identity on ints; on strings, strip
whitespace, accept an optional sign and ASCII digits with underscore
separators; none models the ValueError raised otherwise. -/
def pyToInt (v : PyIntV) : Option Int :=
  match v with
  | .int n => some n
  | .str s =>
    match pyStripL s.data with
    | '+' :: rest => (pyDigits rest).map (fun n => (n : Int))
    | '-' :: rest => (pyDigits rest).map (fun n => -(n : Int))
    | l => (pyDigits l).map (fun n => (n : Int))

/-- Python str() of an Optional[str]: None prints as the word None (the
template interpolates db_name directly, without a null guard). -/
def pyOptStr : Option String → String
  | none => "None"
  | some s => s

/-- The conditional expression used for the three optional SMTP fields:
the word null for None or the empty string, otherwise the value in single
quotes (lines 464-467). -/
def optNullStr : Option String → String
  | none => "null"
  | some s => if s = "" then "null" else SQ ++ s ++ SQ

/-- The languages block (lines 431-435): a dash list when the list is
non-empty, otherwise three commented example lines. -/
def langs_yaml (languages : List String) : String :=
  if languages.isEmpty then "    # - en\n    # - de\n    # - ar"
  else String.intercalate "\n" (languages.map (fun lang => "    - " ++ lang))

/-- The fixed enumeration of encode tiers (res_keys, lines 418-428). -/
def res_keys : List String :=
  ["0p", "144p", "240p", "360p", "480p", "720p", "1080p", "1440p", "2160p"]

/-- One entry of the res_map dict comprehension (line 429): the string
true when the tier occurs in the requested list, else false. -/
def resFlag (resolutions : List String) (k : String) : String :=
  if resolutions.contains k then "true" else "false"

/-- The per-tier lines of the transcoding resolutions section
(lines 513-522), one line per key of the fixed enumeration. -/
def resolutionsBlock (resolutions : List String) : String :=
  "    0p: " ++ resFlag resolutions "0p" ++ "\n"
  ++ "    144p: " ++ resFlag resolutions "144p" ++ "\n"
  ++ "    240p: " ++ resFlag resolutions "240p" ++ "\n"
  ++ "    360p: " ++ resFlag resolutions "360p" ++ "\n"
  ++ "    480p: " ++ resFlag resolutions "480p" ++ "\n"
  ++ "    720p: " ++ resFlag resolutions "720p" ++ "\n"
  ++ "    1080p: " ++ resFlag resolutions "1080p" ++ "\n"
  ++ "    1440p: " ++ resFlag resolutions "1440p" ++ "\n"
  ++ "    2160p: " ++ resFlag resolutions "2160p" ++ "\n"

/-- The parameters of build_production_yaml with their Python defaults
(lines 343-372). -/
structure BuildArgs where
  https : PyVal
  domain : String
  web_port : PyIntV
  secret_value : String
  db_host : String
  db_port : PyIntV
  db_user : String
  db_pass : String
  db_name : Option String := none
  db_ssl : PyVal := .bool false
  smtp_host : Option String := none
  smtp_port : PyIntV := .int 587
  smtp_user : Option String := none
  smtp_pass : Option String := none
  smtp_tls : PyVal := .bool false
  smtp_starttls_disable : PyVal := .bool false
  from_address : String := "PeerTube <no-reply@example.com>"
  instance_name : String := "PeerTube"
  instance_desc : String := "Welcome to this PeerTube instance!"
  languages : Option (List String) := none
  enable_signup : PyVal := .bool false
  requires_approval : PyVal := .bool true
  requires_email_verification : PyVal := .bool false
  video_quota : String := "-1"
  video_quota_daily : String := "-1"
  hls_enabled : PyVal := .bool true
  web_videos_enabled : PyVal := .bool false
  transcoding_keep_original : PyVal := .bool false
  resolutions : Option (List String) := none

/-- Template text from the start of the document through the https line
(lines 437-441). -/
def yHead (https : PyVal) : String :=
  "# Generated by setup_peertube.py\n# Do NOT commit this file to Git. It contains secrets.\n\nwebserver:\n  https: "
  ++ bool_str https ++ "\n"

/-- The hostname line of the webserver section (line 442). -/
def hostLine (domain : String) : String :=
  "  hostname: " ++ SQ ++ domain ++ SQ ++ "\n"

/-- Template text from the webserver port line up to the opening quote of
the secret (lines 443-446). -/
def yPorts (wp : Int) : String :=
  "  port: " ++ toString wp ++ "\n\nsecrets:\n  peertube: " ++ SQ

/-- Template text from the closing quote of the secret through the line
introducing the per-resolution flags (lines 446-513). -/
def yMid (a : BuildArgs) (dp sp : Int) : String :=
  SQ ++ "\n\ndatabase:\n  hostname: " ++ SQ ++ a.db_host ++ SQ
  ++ "\n  port: " ++ toString dp
  ++ "\n  ssl: " ++ bool_str a.db_ssl
  ++ "\n  username: " ++ SQ ++ a.db_user ++ SQ
  ++ "\n  password: " ++ SQ ++ a.db_pass ++ SQ
  ++ "\n  name: " ++ SQ ++ pyOptStr a.db_name ++ SQ
  ++ "\n\nredis:\n  hostname: " ++ SQ ++ "127.0.0.1" ++ SQ
  ++ "\n  port: 6379\n  auth: null\n  db: 0\n\nsmtp:\n  transport: smtp\n  hostname: "
  ++ optNullStr a.smtp_host
  ++ "\n  port: " ++ toString sp
  ++ "\n  username: " ++ optNullStr a.smtp_user
  ++ "\n  password: " ++ optNullStr a.smtp_pass
  ++ "\n  tls: " ++ bool_str a.smtp_tls
  ++ "\n  disable_starttls: " ++ bool_str a.smtp_starttls_disable
  ++ "\n  ca_file: null\n  from_address: " ++ SQ ++ a.from_address ++ SQ
  ++ "\n\nsignup:\n  enabled: " ++ bool_str a.enable_signup
  ++ "\n  limit: 10\n  minimum_age: 16\n  requires_approval: " ++ bool_str a.requires_approval
  ++ "\n  requires_email_verification: " ++ bool_str a.requires_email_verification
  ++ "\n  filters:\n    cidr:\n      whitelist: []\n      blacklist: []\n\ninstance:\n  name: "
  ++ SQ ++ a.instance_name ++ SQ
  ++ "\n  short_description: " ++ SQ ++ a.instance_name ++ SQ
  ++ "\n  description: " ++ SQ ++ a.instance_desc ++ SQ
  ++ "\n  default_client_route: " ++ SQ ++ "/videos/trending" ++ SQ
  ++ "\n  is_nsfw: false\n  default_nsfw_policy: " ++ SQ ++ "do_not_list" ++ SQ
  ++ "\n  languages:\n" ++ langs_yaml (a.languages.getD [])
  ++ "\n\nuser:\n  history:\n    videos:\n      enabled: true\n  video_quota: "
  ++ a.video_quota
  ++ "\n  video_quota_daily: " ++ a.video_quota_daily
  ++ "\n  default_channel_name: " ++ SQ ++ "Main $1 channel" ++ SQ
  ++ "\n\ntranscoding:\n  enabled: true\n  original_file:\n    keep: "
  ++ bool_str a.transcoding_keep_original
  ++ "\n  allow_additional_extensions: true\n  allow_audio_files: true\n  remote_runners:\n    enabled: false\n  threads: 1\n  concurrency: 1\n  profile: "
  ++ SQ ++ "default" ++ SQ
  ++ "\n  resolutions:\n"

/-- Template text from the line after the per-resolution flags through the
end of the document (lines 523-542). -/
def yTail (a : BuildArgs) : String :=
  "  always_transcode_original_resolution: true\n  web_videos:\n    enabled: "
  ++ bool_str a.web_videos_enabled
  ++ "\n  hls:\n    enabled: " ++ bool_str a.hls_enabled
  ++ "\n\nlive:\n  enabled: false\n\nlog:\n  level: " ++ SQ ++ "info" ++ SQ
  ++ "\n  rotation:\n    enabled: true\n    max_file_size: 12MB\n    max_files: 20\n  log_http_requests: true\n\ncontact_form:\n  enabled: true\n"

/-- Embedding of build_production_yaml (lines 343-543).  The f-string
evaluates the three int() coercions while building the document; if any
raises ValueError no document is produced (none), mirroring the
all-or-nothing evaluation of the template.  A missing resolutions
argument (none) is replaced by the default pair before the per-tier map
is built (lines 415-416); a missing languages list becomes empty
(lines 413-414). -/
def build_production_yaml (a : BuildArgs) : Option String :=
  match pyToInt a.web_port, pyToInt a.db_port, pyToInt a.smtp_port with
  | some wp, some dp, some sp =>
    some (yHead a.https ++ hostLine a.domain ++ yPorts wp ++ a.secret_value
      ++ yMid a dp sp
      ++ resolutionsBlock (a.resolutions.getD ["720p", "1080p"])
      ++ yTail a)
  | _, _, _ => none

/-- A concrete, fully specified argument record used by witnesses. -/
def sampleArgs : BuildArgs :=
  { https := .str "true", domain := "videos.example.com", web_port := .int 9000,
    secret_value := "00aabb", db_host := "127.0.0.1", db_port := .int 5432,
    db_user := "peertube", db_pass := "pw" }

/-- C8: if any numeric port field cannot be parsed as an integer, the
renderer fails (the ValueError modelled by none) and produces no document
at all. -/
theorem build_yaml_port_invalid (a : BuildArgs)
    (h : pyToInt a.web_port = none ∨ pyToInt a.db_port = none ∨ pyToInt a.smtp_port = none) :
    build_production_yaml a = none := by
  unfold build_production_yaml
  rcases h with h | h | h <;>
    cases h1 : pyToInt a.web_port <;> cases h2 : pyToInt a.db_port <;>
      cases h3 : pyToInt a.smtp_port <;> simp_all

/-- Witness for C8: a non-numeric web port makes rendering fail. -/
theorem build_yaml_port_invalid_witness :
    build_production_yaml { sampleArgs with web_port := PyIntV.str "peer" } = none :=
  build_yaml_port_invalid { sampleArgs with web_port := PyIntV.str "peer" }
    (Or.inl (by decide))

/-- The hex encoding of a byte list has two characters per byte. -/
theorem byteHex_flatten_length (bs : List Nat) :
    ((bs.map byteHex).flatten).length = 2 * bs.length := by
  induction bs with
  | nil => rfl
  | cons b t ih =>
      simp only [List.map_cons, List.flatten_cons, List.length_append, ih, byteHex]
      simp only [List.length_cons, List.length_nil]
      omega

/-- Reading hexChars at any index (with the default) yields a character of
the hex alphabet. -/
theorem getD_hexChars_mem (n : Nat) : hexChars.getD n '0' ∈ hexChars := by
  cases h : hexChars[n]? with
  | none =>
      simp only [List.getD_eq_getElem?_getD, h, Option.getD_none]
      decide
  | some c =>
      simp only [List.getD_eq_getElem?_getD, h, Option.getD_some]
      rcases List.getElem?_eq_some_iff.mp h with ⟨hn, rfl⟩
      exact List.getElem_mem hn

/-- The rendered document, when the three ports parse, is exactly the
concatenation of the template chunks. -/
theorem build_yaml_decomposition (a : BuildArgs) (wp dp sp : Int)
    (h1 : pyToInt a.web_port = some wp) (h2 : pyToInt a.db_port = some dp)
    (h3 : pyToInt a.smtp_port = some sp) :
    build_production_yaml a
      = some (yHead a.https ++ hostLine a.domain ++ yPorts wp ++ a.secret_value
        ++ yMid a dp sp ++ resolutionsBlock (a.resolutions.getD ["720p", "1080p"])
        ++ yTail a) := by
  unfold build_production_yaml
  rw [h1, h2, h3]

/-- C4: the rendered document depends on the secret only as a literal
infix — for a fixed argument record there are a prefix and a suffix,
independent of the secret, such that rendering with any secret yields
prefix, secret, suffix; and the generated secret for the 32 random bytes
the script draws is a string of 64 characters over the lowercase hex
alphabet. -/
theorem build_yaml_secret_spec :
    (∀ (a : BuildArgs) (wp dp sp : Int), pyToInt a.web_port = some wp →
      pyToInt a.db_port = some dp → pyToInt a.smtp_port = some sp →
      ∃ pre post : String, ∀ s : String,
        build_production_yaml { a with secret_value := s } = some (pre ++ s ++ post))
    ∧ (∀ randomBytes : List Nat, randomBytes.length = 32 →
      (gen_secret_hex randomBytes).length = 64
      ∧ ∀ c ∈ (gen_secret_hex randomBytes).data, c ∈ hexChars) := by
  constructor
  · intro a wp dp sp h1 h2 h3
    refine ⟨yHead a.https ++ hostLine a.domain ++ yPorts wp,
            yMid a dp sp ++ resolutionsBlock (a.resolutions.getD ["720p", "1080p"])
              ++ yTail a, ?_⟩
    intro s
    rw [build_yaml_decomposition { a with secret_value := s } wp dp sp h1 h2 h3]
    simp only [Option.some.injEq, String.append_assoc]
    rfl
  · intro randomBytes hlen
    constructor
    · show ((randomBytes.map byteHex).flatten).length = 64
      rw [byteHex_flatten_length, hlen]
    · intro c hc
      rcases List.mem_flatten.mp hc with ⟨t, ht, hct⟩
      rcases List.mem_map.mp ht with ⟨b, _, rfl⟩
      simp only [byteHex, List.mem_cons, List.not_mem_nil, or_false] at hct
      rcases hct with h | h <;> subst h <;> exact getD_hexChars_mem _

/-- Witness for C4: the decomposition at the sample record, and the hex
shape of the encoding of 32 zero bytes. -/
theorem build_yaml_secret_spec_witness :
    (∃ pre post : String, ∀ s : String,
      build_production_yaml { sampleArgs with secret_value := s }
        = some (pre ++ s ++ post))
    ∧ ((gen_secret_hex (List.replicate 32 0)).length = 64
      ∧ ∀ c ∈ (gen_secret_hex (List.replicate 32 0)).data, c ∈ hexChars) :=
  ⟨build_yaml_secret_spec.1 sampleArgs 9000 5432 587 rfl rfl rfl,
   build_yaml_secret_spec.2 (List.replicate 32 0) (by simp)⟩

/-- From a list whose members are exactly 720p and 1080p, the contains
tests of the per-tier map evaluate accordingly. -/
theorem contains_of_pair_iff (l : List String)
    (hl : ∀ x, x ∈ l ↔ (x = "720p" ∨ x = "1080p")) :
    l.contains "720p" = true ∧ l.contains "1080p" = true
    ∧ ∀ k : String, k ≠ "720p" → k ≠ "1080p" → l.contains k = false := by
  refine ⟨by simp [(hl "720p").mpr (Or.inl rfl)],
          by simp [(hl "1080p").mpr (Or.inr rfl)], ?_⟩
  intro k hk1 hk2
  have : k ∉ l := fun hmem => by
    rcases (hl k).mp hmem with h | h
    · exact hk1 h
    · exact hk2 h
  simp [this]

/-- C3: the rendered document always embeds the per-tier block built over
the full fixed enumeration; with an empty selection every tier is
disabled, and with a selection whose members are exactly 720p and 1080p
(any order, any duplicates) exactly those two tiers are enabled. -/
theorem build_yaml_resolutions_spec :
    (∀ (a : BuildArgs) (wp dp sp : Int), pyToInt a.web_port = some wp →
      pyToInt a.db_port = some dp → pyToInt a.smtp_port = some sp →
      ∃ pre post : String, build_production_yaml a
        = some (pre ++ resolutionsBlock (a.resolutions.getD ["720p", "1080p"]) ++ post))
    ∧ resolutionsBlock []
      = "    0p: false\n    144p: false\n    240p: false\n    360p: false\n    480p: false\n    720p: false\n    1080p: false\n    1440p: false\n    2160p: false\n"
    ∧ (∀ l : List String, (∀ x, x ∈ l ↔ (x = "720p" ∨ x = "1080p")) →
      resolutionsBlock l
        = "    0p: false\n    144p: false\n    240p: false\n    360p: false\n    480p: false\n    720p: true\n    1080p: true\n    1440p: false\n    2160p: false\n") := by
  refine ⟨?_, by decide, ?_⟩
  · intro a wp dp sp h1 h2 h3
    exact ⟨yHead a.https ++ hostLine a.domain ++ yPorts wp ++ a.secret_value
      ++ yMid a dp sp, yTail a, build_yaml_decomposition a wp dp sp h1 h2 h3⟩
  · intro l hl
    rcases contains_of_pair_iff l hl with ⟨h720, h1080, hothers⟩
    simp only [resolutionsBlock, resFlag, h720, h1080,
      hothers "0p" (by decide) (by decide), hothers "144p" (by decide) (by decide),
      hothers "240p" (by decide) (by decide), hothers "360p" (by decide) (by decide),
      hothers "480p" (by decide) (by decide), hothers "1440p" (by decide) (by decide),
      hothers "2160p" (by decide) (by decide), if_true, if_false]
    decide

/-- Witness for C3: the decomposition at the sample record, whose
resolutions argument is absent and therefore defaulted. -/
theorem build_yaml_resolutions_spec_witness :
    ∃ pre post : String, build_production_yaml sampleArgs
      = some (pre ++ resolutionsBlock ((sampleArgs.resolutions).getD ["720p", "1080p"]) ++ post) :=
  build_yaml_resolutions_spec.1 sampleArgs 9000 5432 587 rfl rfl rfl

/-- yMid does not read the resolutions field. -/
theorem yMid_res_irrel (a : BuildArgs) (rs : Option (List String)) (dp sp : Int) :
    yMid { a with resolutions := rs } dp sp = yMid a dp sp := rfl

/-- yTail does not read the resolutions field. -/
theorem yTail_res_irrel (a : BuildArgs) (rs : Option (List String)) :
    yTail { a with resolutions := rs } = yTail a := rfl

/-- C10: an absent resolutions argument (none) is silently replaced by the
default pair, so rendering with none equals rendering with the explicit
default selection, and differs from rendering with the explicit empty
selection. -/
theorem build_yaml_resolutions_none_default :
    (∀ a : BuildArgs,
      build_production_yaml { a with resolutions := none }
        = build_production_yaml { a with resolutions := some ["720p", "1080p"] })
    ∧ build_production_yaml { sampleArgs with resolutions := none }
      ≠ build_production_yaml { sampleArgs with resolutions := some [] } := by
  constructor
  · intro a
    dsimp only [build_production_yaml, Option.getD]
    simp only [yMid_res_irrel, yTail_res_irrel]
  · intro h
    rw [build_yaml_decomposition { sampleArgs with resolutions := none } 9000 5432 587
          rfl rfl rfl,
        build_yaml_decomposition { sampleArgs with resolutions := some [] } 9000 5432 587
          rfl rfl rfl] at h
    dsimp only [Option.getD] at h
    simp only [yMid_res_irrel, yTail_res_irrel] at h
    have hd := congrArg String.data (Option.some.inj h)
    simp only [String.data_append, List.append_assoc] at hd
    have hb := List.append_cancel_right
      (List.append_cancel_left (List.append_cancel_left (List.append_cancel_left
        (List.append_cancel_left (List.append_cancel_left hd)))))
    exact absurd (String.ext hb) (by decide)

/-- Witness for C10: the substitution at the sample record. -/
theorem build_yaml_resolutions_none_default_witness :
    build_production_yaml { sampleArgs with resolutions := none }
      = build_production_yaml { sampleArgs with resolutions := some ["720p", "1080p"] } :=
  build_yaml_resolutions_none_default.1 sampleArgs

/-! ## The orchestrator tail: proxy configuration, certificate,
supervisor unit and firewall (configure_nginx, lines 583-620;
write_systemd_service, lines 651-687; ufw_allow_http_https, lines
691-699; main, lines 830-842) -/

/-- Host observations for the tail of main: the exit codes of the
commands run with check True (which raise CommandFailed when non-zero)
and whether the ufw binary is present.  Commands run with check False
cannot abort the run, so their exit codes do not enter the state. -/
structure TailEnv where
  lnExit : Nat
  nginxTestExit : Nat
  reloadExit : Nat
  daemonReloadExit : Nat
  sleepExit : Nat
  ufwPresent : Bool
deriving DecidableEq

/-- Terminal state of the tail of main: the Completed banner, or an abort
by an uncaught CommandFailed, in both cases with the trace of external
commands that were invoked. -/
inductive TailResult where
  | completed (trace : List String)
  | aborted (trace : List String) (failedCmd : String)
deriving DecidableEq

/-- True exactly for the Completed terminal state. -/
def isCompleted : TailResult → Bool
  | .completed _ => true
  | .aborted _ _ => false

/-- The commands invoked before the run ended. -/
def traceOf : TailResult → List String
  | .completed t => t
  | .aborted t _ => t

/-- Embedding of main from the configure_nginx call to the Completed
banner (lines 830-842).  configure_nginx links the site, validates with
nginx -t and reloads, all through run with check True and with no
handler anywhere on this path, so the first non-zero exit aborts main.
enable_https_if_needed runs certbot with check False;
write_systemd_service keeps check True only for systemctl daemon-reload
and the shell sleep; ufw_allow_http_https only runs when ufw is present
and never aborts. -/
def mainTail (domain : String) (https : PyVal) (env : TailEnv) : TailResult :=
  let t1 := ["ln -sf /etc/nginx/sites-available/peertube /etc/nginx/sites-enabled/peertube"]
  if env.lnExit ≠ 0 then
    .aborted t1 "ln -sf /etc/nginx/sites-available/peertube /etc/nginx/sites-enabled/peertube"
  else
    let t2 := t1 ++ ["nginx -t"]
    if env.nginxTestExit ≠ 0 then .aborted t2 "nginx -t"
    else
      let t3 := t2 ++ ["systemctl reload nginx"]
      if env.reloadExit ≠ 0 then .aborted t3 "systemctl reload nginx"
      else
        let t4 := t3 ++ (match enable_https_if_needed domain https with
          | .ranCertbot c => [c]
          | _ => [])
        let t5 := t4 ++ ["systemctl daemon-reload"]
        if env.daemonReloadExit ≠ 0 then .aborted t5 "systemctl daemon-reload"
        else
          let t6 := t5 ++ ["systemctl enable peertube", "systemctl restart peertube", "sleep 3"]
          if env.sleepExit ≠ 0 then .aborted t6 "sleep 3"
          else
            let t7 := t6 ++ ["systemctl status peertube --no-pager -n 50"]
            let t8 := t7 ++ (if env.ufwPresent then ["ufw allow 80/tcp", "ufw allow 443/tcp"] else [])
            .completed t8

/-- An environment in which nginx configuration validation fails and
everything else succeeds on a host with ufw installed. -/
def nginxTestFailEnv : TailEnv :=
  { lnExit := 0, nginxTestExit := 1, reloadExit := 0, daemonReloadExit := 0,
    sleepExit := 0, ufwPresent := true }

/-- C7 counterexample: when nginx -t fails, the run does not continue to
the supervisor and firewall steps and does not reach Completed — it
aborts immediately after the validation command, because run is called
with check True and no caller catches the failure. -/
theorem nginx_validation_abort_counterexample :
    mainTail "videos.example.com" (PyVal.str "false") nginxTestFailEnv
      = TailResult.aborted
          ["ln -sf /etc/nginx/sites-available/peertube /etc/nginx/sites-enabled/peertube",
           "nginx -t"] "nginx -t"
    ∧ isCompleted (mainTail "videos.example.com" (PyVal.str "false") nginxTestFailEnv)
      = false := ⟨rfl, rfl⟩

/-- C7 amended: when the proxy configuration syntax validation fails, the
whole run aborts at that point — the reload is not executed, but neither
are the certificate, supervisor unit and firewall steps, and the
Completed terminal state is not reached. -/
theorem nginx_validation_aborts_run (domain : String) (https : PyVal) (env : TailEnv)
    (hln : env.lnExit = 0) (htest : env.nginxTestExit ≠ 0) :
    mainTail domain https env
      = TailResult.aborted
          ["ln -sf /etc/nginx/sites-available/peertube /etc/nginx/sites-enabled/peertube",
           "nginx -t"] "nginx -t"
    ∧ isCompleted (mainTail domain https env) = false
    ∧ "systemctl reload nginx" ∉ traceOf (mainTail domain https env)
    ∧ "systemctl daemon-reload" ∉ traceOf (mainTail domain https env)
    ∧ "ufw allow 80/tcp" ∉ traceOf (mainTail domain https env) := by
  have he : mainTail domain https env
      = TailResult.aborted
          ["ln -sf /etc/nginx/sites-available/peertube /etc/nginx/sites-enabled/peertube",
           "nginx -t"] "nginx -t" := by
    unfold mainTail
    simp [hln, htest]
  refine ⟨he, ?_, ?_, ?_, ?_⟩ <;> rw [he] <;> decide

/-- Witness for C7 amended at a concrete domain and environment. -/
theorem nginx_validation_aborts_run_witness :
    isCompleted (mainTail "203.0.113.7" (PyVal.str "true") nginxTestFailEnv) = false :=
  (nginx_validation_aborts_run "203.0.113.7" (PyVal.str "true") nginxTestFailEnv
    rfl (by decide)).2.1

/-! ## Options resolution (DEFAULTS, lines 13-50; parse_args, lines
703-735) and the proxy site text (configure_nginx, lines 592-616) -/

/-- The environment variables the DEFAULTS table reads (none models an
unset variable). -/
structure Env where
  PT_DOMAIN : Option String := none
  PT_HTTPS : Option String := none
  PT_WEB_PORT : Option String := none
  PT_USER : Option String := none
  PT_HOME : Option String := none
  PT_DB_HOST : Option String := none
  PT_DB_PORT : Option String := none
  PT_DB_USER : Option String := none
  PT_DB_PASS : Option String := none
  PT_DB_NAME : Option String := none
  PT_DB_SSL : Option String := none
  PT_SMTP_HOST : Option String := none
  PT_SMTP_PORT : Option String := none
  PT_SMTP_USER : Option String := none
  PT_SMTP_PASS : Option String := none
  PT_SMTP_TLS : Option String := none
  PT_SMTP_DISABLE_STARTTLS : Option String := none
  PT_FROM_ADDRESS : Option String := none
  PT_INSTANCE_NAME : Option String := none
  PT_INSTANCE_DESC : Option String := none
  PT_LANGUAGES : Option String := none
  PT_RESOLUTIONS : Option String := none
  PT_ENABLE_SIGNUP : Option String := none
  PT_REQUIRES_APPROVAL : Option String := none
  PT_REQUIRES_EMAIL_VERIFICATION : Option String := none
  PT_KEEP_ORIGINAL : Option String := none
  PT_HLS_ENABLED : Option String := none
  PT_WEB_VIDEOS_ENABLED : Option String := none

/-- The environment with every variable unset. -/
def emptyEnv : Env := {}

/-- The configuration dictionary assembled by DEFAULTS and parse_args:
one field per key, strings except for the three ports which DEFAULTS
coerces with int(). -/
structure Cfg where
  domain : String
  https : String
  web_port : Int
  pt_user : String
  pt_home : String
  db_host : String
  db_port : Int
  db_user : String
  db_pass : String
  db_name : String
  db_ssl : String
  smtp_host : String
  smtp_port : Int
  smtp_user : String
  smtp_pass : String
  smtp_tls : String
  smtp_disable_starttls : String
  from_address : String
  instance_name : String
  instance_desc : String
  languages : String
  resolutions : String
  enable_signup : String
  requires_approval : String
  requires_email_verification : String
  keep_original : String
  hls_enabled : String
  web_videos_enabled : String
deriving DecidableEq

/-- Embedding of the DEFAULTS table (lines 13-50): every key reads an
environment variable with a fixed fallback; the three port values go
through int(), whose ValueError at module load is modelled as none. -/
def DEFAULTS (env : Env) : Option Cfg :=
  match pyToInt (.str (env.PT_WEB_PORT.getD "9000")),
        pyToInt (.str (env.PT_DB_PORT.getD "5432")),
        pyToInt (.str (env.PT_SMTP_PORT.getD "587")) with
  | some wp, some dp, some sp =>
    some { domain := env.PT_DOMAIN.getD "videos.example.com",
           https := env.PT_HTTPS.getD "true",
           web_port := wp,
           pt_user := env.PT_USER.getD "peertube",
           pt_home := env.PT_HOME.getD "/var/www",
           db_host := env.PT_DB_HOST.getD "127.0.0.1",
           db_port := dp,
           db_user := env.PT_DB_USER.getD "peertube",
           db_pass := env.PT_DB_PASS.getD "CHANGE_ME_DB_PASS",
           db_name := env.PT_DB_NAME.getD "peertube",
           db_ssl := env.PT_DB_SSL.getD "false",
           smtp_host := env.PT_SMTP_HOST.getD "",
           smtp_port := sp,
           smtp_user := env.PT_SMTP_USER.getD "",
           smtp_pass := env.PT_SMTP_PASS.getD "",
           smtp_tls := env.PT_SMTP_TLS.getD "true",
           smtp_disable_starttls := env.PT_SMTP_DISABLE_STARTTLS.getD "false",
           from_address := env.PT_FROM_ADDRESS.getD "PeerTube <no-reply@videos.example.com>",
           instance_name := env.PT_INSTANCE_NAME.getD "MyTube",
           instance_desc := env.PT_INSTANCE_DESC.getD "Public PeerTube instance",
           languages := env.PT_LANGUAGES.getD "en,de,ar",
           resolutions := env.PT_RESOLUTIONS.getD "720p,1080p",
           enable_signup := env.PT_ENABLE_SIGNUP.getD "false",
           requires_approval := env.PT_REQUIRES_APPROVAL.getD "true",
           requires_email_verification := env.PT_REQUIRES_EMAIL_VERIFICATION.getD "false",
           keep_original := env.PT_KEEP_ORIGINAL.getD "false",
           hls_enabled := env.PT_HLS_ENABLED.getD "true",
           web_videos_enabled := env.PT_WEB_VIDEOS_ENABLED.getD "false" }
  | _, _, _ => none

/-- Split a character list at the first equals sign (str.split with
maxsplit one); none when no equals sign occurs. -/
def splitEq1 : List Char → Option (List Char × List Char)
  | [] => none
  | c :: rest =>
    if c = '=' then some ([], rest)
    else (splitEq1 rest).map (fun p => (c :: p.1, p.2))

/-- Normalise an option key as parse_args does (line 723): strip
whitespace, then replace dashes by underscores. -/
def keyNorm (k : List Char) : String :=
  ⟨(pyStripL k).map (fun c => if c = '-' then '_' else c)⟩

/-- The normalised key of a command line argument of the form
--key=value; none when the argument does not have that form
(lines 721-723). -/
def argKey (arg : String) : Option String :=
  if arg.startsWith "--" && arg.data.contains '=' then
    (splitEq1 (arg.data.drop 2)).map (fun p => keyNorm p.1)
  else none

/-- The value part of a command line argument of the form --key=value. -/
def argVal (arg : String) : Option String :=
  if arg.startsWith "--" && arg.data.contains '=' then
    (splitEq1 (arg.data.drop 2)).map (fun p => (⟨p.2⟩ : String))
  else none

/-- Overlay one parsed key onto the configuration (lines 724-731): known
keys are replaced; the three port keys are coerced with int(), keeping
the previous (always integral) value when coercion fails; unknown keys
are ignored. -/
def setCfgField (cfg : Cfg) (key : String) (value : String) : Cfg :=
  if key = "web_port" then { cfg with web_port := (pyToInt (.str value)).getD cfg.web_port }
  else if key = "db_port" then { cfg with db_port := (pyToInt (.str value)).getD cfg.db_port }
  else if key = "smtp_port" then { cfg with smtp_port := (pyToInt (.str value)).getD cfg.smtp_port }
  else if key = "domain" then { cfg with domain := value }
  else if key = "https" then { cfg with https := value }
  else if key = "pt_user" then { cfg with pt_user := value }
  else if key = "pt_home" then { cfg with pt_home := value }
  else if key = "db_host" then { cfg with db_host := value }
  else if key = "db_user" then { cfg with db_user := value }
  else if key = "db_pass" then { cfg with db_pass := value }
  else if key = "db_name" then { cfg with db_name := value }
  else if key = "db_ssl" then { cfg with db_ssl := value }
  else if key = "smtp_host" then { cfg with smtp_host := value }
  else if key = "smtp_user" then { cfg with smtp_user := value }
  else if key = "smtp_pass" then { cfg with smtp_pass := value }
  else if key = "smtp_tls" then { cfg with smtp_tls := value }
  else if key = "smtp_disable_starttls" then { cfg with smtp_disable_starttls := value }
  else if key = "from_address" then { cfg with from_address := value }
  else if key = "instance_name" then { cfg with instance_name := value }
  else if key = "instance_desc" then { cfg with instance_desc := value }
  else if key = "languages" then { cfg with languages := value }
  else if key = "resolutions" then { cfg with resolutions := value }
  else if key = "enable_signup" then { cfg with enable_signup := value }
  else if key = "requires_approval" then { cfg with requires_approval := value }
  else if key = "requires_email_verification" then { cfg with requires_email_verification := value }
  else if key = "keep_original" then { cfg with keep_original := value }
  else if key = "hls_enabled" then { cfg with hls_enabled := value }
  else if key = "web_videos_enabled" then { cfg with web_videos_enabled := value }
  else cfg

/-- One iteration of the overlay loop (lines 720-731). -/
def applyArg (cfg : Cfg) (arg : String) : Cfg :=
  match argKey arg, argVal arg with
  | some k, some v => setCfgField cfg k v
  | _, _ => cfg

/-- The from_address derivation at the end of parse_args (lines
733-734): when it still holds the stock default, rebuild it from the
configured domain. -/
def fromAddressFix (cfg : Cfg) : Cfg :=
  if cfg.from_address = "PeerTube <no-reply@videos.example.com>"
  then { cfg with from_address := "PeerTube <no-reply@" ++ cfg.domain ++ ">" }
  else cfg

/-- Embedding of parse_args (lines 703-735): overlay --key=value pairs
from argv after the program name onto DEFAULTS, then derive
from_address from the domain. -/
def parse_args (env : Env) (argv : List String) : Option Cfg :=
  (DEFAULTS env).map (fun cfg => fromAddressFix ((argv.drop 1).foldl applyArg cfg))

/-- The server_name directive of the generated proxy site (line 596). -/
def serverNameChunk (domain : String) : String := "server_name " ++ domain ++ ";"

/-- Embedding of the nginx site text written by configure_nginx (lines
592-616), after dedent and strip, with the trailing newline. -/
def site_conf (domain : String) (web_port : Int) : String :=
  "server \x7b\n  " ++ serverNameChunk domain
  ++ "\n  listen 80;\n  listen [::]:80;\n\n  location / \x7b\n    proxy_pass http://127.0.0.1:"
  ++ toString web_port
  ++ ";\n    proxy_http_version 1.1;\n    proxy_set_header Host $host;\n    proxy_set_header X-Real-IP $remote_addr;\n    proxy_set_header X-Forwarded-For $proxy_add_x_forwarded_for;\n    proxy_set_header X-Forwarded-Proto $scheme;\n    proxy_connect_timeout 600s;\n    proxy_send_timeout    600s;\n    proxy_read_timeout    600s;\n    send_timeout          600s;\n  \x7d\n\x7d\n"

/-- C9 counterexample: with the domain variable unset and no overriding
argument, the configured domain is the fixed placeholder
videos.example.com — a name that is not IPv4-shaped — so the domain is
not resolved to the primary IPv4 address of the host (the script
contains no address detection at all). -/
theorem domain_default_counterexample :
    (parse_args emptyEnv ["setup_peertube.py"]).map
        (fun cfg => (cfg.domain, is_ip cfg.domain))
      = some ("videos.example.com", false) := by
  rfl

/-- Overlaying any key other than domain leaves the domain unchanged. -/
theorem setCfgField_domain (cfg : Cfg) (key v : String) (hk : key ≠ "domain") :
    (setCfgField cfg key v).domain = cfg.domain := by
  unfold setCfgField
  by_cases h1 : key = "web_port"
  · rw [if_pos h1]
  rw [if_neg h1]
  by_cases h2 : key = "db_port"
  · rw [if_pos h2]
  rw [if_neg h2]
  by_cases h3 : key = "smtp_port"
  · rw [if_pos h3]
  rw [if_neg h3]
  by_cases h4 : key = "domain"
  · exact absurd h4 hk
  rw [if_neg h4]
  by_cases h5 : key = "https"
  · rw [if_pos h5]
  rw [if_neg h5]
  by_cases h6 : key = "pt_user"
  · rw [if_pos h6]
  rw [if_neg h6]
  by_cases h7 : key = "pt_home"
  · rw [if_pos h7]
  rw [if_neg h7]
  by_cases h8 : key = "db_host"
  · rw [if_pos h8]
  rw [if_neg h8]
  by_cases h9 : key = "db_user"
  · rw [if_pos h9]
  rw [if_neg h9]
  by_cases h10 : key = "db_pass"
  · rw [if_pos h10]
  rw [if_neg h10]
  by_cases h11 : key = "db_name"
  · rw [if_pos h11]
  rw [if_neg h11]
  by_cases h12 : key = "db_ssl"
  · rw [if_pos h12]
  rw [if_neg h12]
  by_cases h13 : key = "smtp_host"
  · rw [if_pos h13]
  rw [if_neg h13]
  by_cases h14 : key = "smtp_user"
  · rw [if_pos h14]
  rw [if_neg h14]
  by_cases h15 : key = "smtp_pass"
  · rw [if_pos h15]
  rw [if_neg h15]
  by_cases h16 : key = "smtp_tls"
  · rw [if_pos h16]
  rw [if_neg h16]
  by_cases h17 : key = "smtp_disable_starttls"
  · rw [if_pos h17]
  rw [if_neg h17]
  by_cases h18 : key = "from_address"
  · rw [if_pos h18]
  rw [if_neg h18]
  by_cases h19 : key = "instance_name"
  · rw [if_pos h19]
  rw [if_neg h19]
  by_cases h20 : key = "instance_desc"
  · rw [if_pos h20]
  rw [if_neg h20]
  by_cases h21 : key = "languages"
  · rw [if_pos h21]
  rw [if_neg h21]
  by_cases h22 : key = "resolutions"
  · rw [if_pos h22]
  rw [if_neg h22]
  by_cases h23 : key = "enable_signup"
  · rw [if_pos h23]
  rw [if_neg h23]
  by_cases h24 : key = "requires_approval"
  · rw [if_pos h24]
  rw [if_neg h24]
  by_cases h25 : key = "requires_email_verification"
  · rw [if_pos h25]
  rw [if_neg h25]
  by_cases h26 : key = "keep_original"
  · rw [if_pos h26]
  rw [if_neg h26]
  by_cases h27 : key = "hls_enabled"
  · rw [if_pos h27]
  rw [if_neg h27]
  by_cases h28 : key = "web_videos_enabled"
  · rw [if_pos h28]
  rw [if_neg h28]

/-- Overlaying any key other than from_address leaves it unchanged. -/
theorem setCfgField_from_address (cfg : Cfg) (key v : String) (hk : key ≠ "from_address") :
    (setCfgField cfg key v).from_address = cfg.from_address := by
  unfold setCfgField
  by_cases h1 : key = "web_port"
  · rw [if_pos h1]
  rw [if_neg h1]
  by_cases h2 : key = "db_port"
  · rw [if_pos h2]
  rw [if_neg h2]
  by_cases h3 : key = "smtp_port"
  · rw [if_pos h3]
  rw [if_neg h3]
  by_cases h4 : key = "domain"
  · rw [if_pos h4]
  rw [if_neg h4]
  by_cases h5 : key = "https"
  · rw [if_pos h5]
  rw [if_neg h5]
  by_cases h6 : key = "pt_user"
  · rw [if_pos h6]
  rw [if_neg h6]
  by_cases h7 : key = "pt_home"
  · rw [if_pos h7]
  rw [if_neg h7]
  by_cases h8 : key = "db_host"
  · rw [if_pos h8]
  rw [if_neg h8]
  by_cases h9 : key = "db_user"
  · rw [if_pos h9]
  rw [if_neg h9]
  by_cases h10 : key = "db_pass"
  · rw [if_pos h10]
  rw [if_neg h10]
  by_cases h11 : key = "db_name"
  · rw [if_pos h11]
  rw [if_neg h11]
  by_cases h12 : key = "db_ssl"
  · rw [if_pos h12]
  rw [if_neg h12]
  by_cases h13 : key = "smtp_host"
  · rw [if_pos h13]
  rw [if_neg h13]
  by_cases h14 : key = "smtp_user"
  · rw [if_pos h14]
  rw [if_neg h14]
  by_cases h15 : key = "smtp_pass"
  · rw [if_pos h15]
  rw [if_neg h15]
  by_cases h16 : key = "smtp_tls"
  · rw [if_pos h16]
  rw [if_neg h16]
  by_cases h17 : key = "smtp_disable_starttls"
  · rw [if_pos h17]
  rw [if_neg h17]
  by_cases h18 : key = "from_address"
  · exact absurd h18 hk
  rw [if_neg h18]
  by_cases h19 : key = "instance_name"
  · rw [if_pos h19]
  rw [if_neg h19]
  by_cases h20 : key = "instance_desc"
  · rw [if_pos h20]
  rw [if_neg h20]
  by_cases h21 : key = "languages"
  · rw [if_pos h21]
  rw [if_neg h21]
  by_cases h22 : key = "resolutions"
  · rw [if_pos h22]
  rw [if_neg h22]
  by_cases h23 : key = "enable_signup"
  · rw [if_pos h23]
  rw [if_neg h23]
  by_cases h24 : key = "requires_approval"
  · rw [if_pos h24]
  rw [if_neg h24]
  by_cases h25 : key = "requires_email_verification"
  · rw [if_pos h25]
  rw [if_neg h25]
  by_cases h26 : key = "keep_original"
  · rw [if_pos h26]
  rw [if_neg h26]
  by_cases h27 : key = "hls_enabled"
  · rw [if_pos h27]
  rw [if_neg h27]
  by_cases h28 : key = "web_videos_enabled"
  · rw [if_pos h28]
  rw [if_neg h28]

/-- One overlay step preserves the domain unless its key is domain. -/
theorem applyArg_domain (cfg : Cfg) (arg : String) (h : argKey arg ≠ some "domain") :
    (applyArg cfg arg).domain = cfg.domain := by
  unfold applyArg
  cases hk : argKey arg with
  | none => cases hv : argVal arg <;> rfl
  | some k =>
    cases hv : argVal arg with
    | none => rfl
    | some v =>
      refine setCfgField_domain cfg k v ?_
      intro he
      rw [he] at hk
      exact h hk

/-- One overlay step preserves from_address unless its key is
from_address. -/
theorem applyArg_from_address (cfg : Cfg) (arg : String)
    (h : argKey arg ≠ some "from_address") :
    (applyArg cfg arg).from_address = cfg.from_address := by
  unfold applyArg
  cases hk : argKey arg with
  | none => cases hv : argVal arg <;> rfl
  | some k =>
    cases hv : argVal arg with
    | none => rfl
    | some v =>
      refine setCfgField_from_address cfg k v ?_
      intro he
      rw [he] at hk
      exact h hk

/-- The whole overlay loop preserves the domain when no argument names
it. -/
theorem foldl_applyArg_domain (args : List String) :
    ∀ cfg : Cfg, (∀ a ∈ args, argKey a ≠ some "domain") →
      (args.foldl applyArg cfg).domain = cfg.domain := by
  induction args with
  | nil => intro cfg _; rfl
  | cons a t ih =>
      intro cfg h
      simp only [List.foldl_cons]
      rw [ih (applyArg cfg a) (fun x hx => h x (by simp [hx]))]
      exact applyArg_domain cfg a (h a (by simp))

/-- The whole overlay loop preserves from_address when no argument names
it. -/
theorem foldl_applyArg_from_address (args : List String) :
    ∀ cfg : Cfg, (∀ a ∈ args, argKey a ≠ some "from_address") →
      (args.foldl applyArg cfg).from_address = cfg.from_address := by
  induction args with
  | nil => intro cfg _; rfl
  | cons a t ih =>
      intro cfg h
      simp only [List.foldl_cons]
      rw [ih (applyArg cfg a) (fun x hx => h x (by simp [hx]))]
      exact applyArg_from_address cfg a (h a (by simp))

/-- C9 amended: in a run where the domain option is unset (environment
variable absent, no overriding argument) and the sender address is also
left to its default, the domain falls back to the fixed placeholder
videos.example.com — no host address detection takes place — and that
single placeholder is what reaches every downstream artifact: the
derived sender address, the hostname line of the rendered configuration,
and the server_name directive of the proxy site. -/
theorem domain_placeholder_consistency (env : Env) (argv : List String) (cfg : Cfg)
    (hdom : env.PT_DOMAIN = none) (hfrom : env.PT_FROM_ADDRESS = none)
    (hargs : ∀ a ∈ argv.drop 1,
      argKey a ≠ some "domain" ∧ argKey a ≠ some "from_address")
    (hp : parse_args env argv = some cfg) :
    cfg.domain = "videos.example.com"
    ∧ cfg.from_address = "PeerTube <no-reply@videos.example.com>"
    ∧ (∀ (a : BuildArgs) (wp dp sp : Int), a.domain = cfg.domain →
        pyToInt a.web_port = some wp → pyToInt a.db_port = some dp →
        pyToInt a.smtp_port = some sp →
        ∃ pre post : String, build_production_yaml a
          = some (pre ++ hostLine "videos.example.com" ++ post))
    ∧ (∀ wp : Int, ∃ pre post : String,
        site_conf cfg.domain wp = pre ++ serverNameChunk "videos.example.com" ++ post) := by
  unfold parse_args at hp
  obtain ⟨cfg0, hd, hc⟩ := Option.map_eq_some'.mp hp
  have hdef : cfg0.domain = "videos.example.com"
      ∧ cfg0.from_address = "PeerTube <no-reply@videos.example.com>" := by
    unfold DEFAULTS at hd
    cases h1 : pyToInt (PyIntV.str (env.PT_WEB_PORT.getD "9000")) <;>
      cases h2 : pyToInt (PyIntV.str (env.PT_DB_PORT.getD "5432")) <;>
      cases h3 : pyToInt (PyIntV.str (env.PT_SMTP_PORT.getD "587")) <;>
      rw [h1, h2, h3] at hd <;> simp_all
    rw [← hd]
    exact ⟨rfl, rfl⟩
  have hmd : ((argv.drop 1).foldl applyArg cfg0).domain = "videos.example.com" := by
    rw [foldl_applyArg_domain (argv.drop 1) cfg0 (fun a ha => (hargs a ha).1)]
    exact hdef.1
  have hmf : ((argv.drop 1).foldl applyArg cfg0).from_address
      = "PeerTube <no-reply@videos.example.com>" := by
    rw [foldl_applyArg_from_address (argv.drop 1) cfg0 (fun a ha => (hargs a ha).2)]
    exact hdef.2
  have hcfg : cfg = fromAddressFix ((argv.drop 1).foldl applyArg cfg0) := hc.symm
  have hcd : cfg.domain = "videos.example.com" := by
    rw [hcfg]
    unfold fromAddressFix
    rw [if_pos hmf]
    exact hmd
  have hcf : cfg.from_address = "PeerTube <no-reply@videos.example.com>" := by
    rw [hcfg]
    unfold fromAddressFix
    rw [if_pos hmf]
    show "PeerTube <no-reply@" ++ ((argv.drop 1).foldl applyArg cfg0).domain ++ ">"
      = "PeerTube <no-reply@videos.example.com>"
    rw [hmd]
    rfl
  refine ⟨hcd, hcf, ?_, ?_⟩
  · intro a wp dp sp hadom h1 h2 h3
    refine ⟨yHead a.https,
      yPorts wp ++ a.secret_value ++ yMid a dp sp
        ++ resolutionsBlock (a.resolutions.getD ["720p", "1080p"]) ++ yTail a, ?_⟩
    rw [build_yaml_decomposition a wp dp sp h1 h2 h3, hadom, hcd]
    simp only [Option.some.injEq, String.append_assoc]
  · intro wp
    refine ⟨"server \x7b\n  ",
      "\n  listen 80;\n  listen [::]:80;\n\n  location / \x7b\n    proxy_pass http://127.0.0.1:"
        ++ toString wp
        ++ ";\n    proxy_http_version 1.1;\n    proxy_set_header Host $host;\n    proxy_set_header X-Real-IP $remote_addr;\n    proxy_set_header X-Forwarded-For $proxy_add_x_forwarded_for;\n    proxy_set_header X-Forwarded-Proto $scheme;\n    proxy_connect_timeout 600s;\n    proxy_send_timeout    600s;\n    proxy_read_timeout    600s;\n    send_timeout          600s;\n  \x7d\n\x7d\n", ?_⟩
    rw [hcd]
    simp only [site_conf, String.append_assoc]

/-- The configuration produced from an empty environment and no
arguments. -/
def stockCfg : Cfg :=
  { domain := "videos.example.com", https := "true", web_port := 9000,
    pt_user := "peertube", pt_home := "/var/www", db_host := "127.0.0.1",
    db_port := 5432, db_user := "peertube", db_pass := "CHANGE_ME_DB_PASS",
    db_name := "peertube", db_ssl := "false", smtp_host := "", smtp_port := 587,
    smtp_user := "", smtp_pass := "", smtp_tls := "true",
    smtp_disable_starttls := "false",
    from_address := "PeerTube <no-reply@videos.example.com>",
    instance_name := "MyTube", instance_desc := "Public PeerTube instance",
    languages := "en,de,ar", resolutions := "720p,1080p", enable_signup := "false",
    requires_approval := "true", requires_email_verification := "false",
    keep_original := "false", hls_enabled := "true", web_videos_enabled := "false" }

/-- Witness for C9 amended: the empty environment and a bare argv. -/
theorem domain_placeholder_consistency_witness :
    stockCfg.domain = "videos.example.com"
    ∧ stockCfg.from_address = "PeerTube <no-reply@videos.example.com>"
    ∧ (∀ (a : BuildArgs) (wp dp sp : Int), a.domain = stockCfg.domain →
        pyToInt a.web_port = some wp → pyToInt a.db_port = some dp →
        pyToInt a.smtp_port = some sp →
        ∃ pre post : String, build_production_yaml a
          = some (pre ++ hostLine "videos.example.com" ++ post))
    ∧ (∀ wp : Int, ∃ pre post : String,
        site_conf stockCfg.domain wp = pre ++ serverNameChunk "videos.example.com" ++ post) :=
  domain_placeholder_consistency emptyEnv ["setup_peertube.py"] stockCfg rfl rfl
    (by simp) rfl

end SetupPT
